import Mathlib

/-!
Verification of the maze traversal engine (`game_core`) and its desktop
startup policy (`desktop`), shallowly embedded in Lean.

Modelling conventions:
* Rust `String` is Lean `String`; `Vec<T>` is `List T`.
* Functions that can panic in Rust (`from_rooms` on an empty list,
  `current_room()` / `choose_exit` when the cursor matches no room)
  return `Option`, `none` standing for the panic/abort.
* `Box<dyn std::error::Error>` in `load_from_file` only ever carries one
  of two concrete error values in this program — the I/O error from
  `File::open` or the parse error from `serde_json::from_reader` — so it
  is embedded as the sum type `LoadError`.  The file system and the JSON
  parser are external collaborators and enter as function parameters.
-/

/-- One directed edge out of a room (`Exit` in `game_core/src/lib.rs`). -/
structure Exit where
  label : String
  destination : String
deriving DecidableEq, Repr

/-- One location node (`Room` in `game_core/src/lib.rs`). -/
structure Room where
  id : String
  description : String
  exits : List Exit
  is_end : Bool
deriving DecidableEq, Repr

/-- The live traversal session (`GameState` in `game_core/src/lib.rs`). -/
structure GameState where
  rooms : List Room
  current_room : String
  is_finished : Bool
deriving DecidableEq, Repr

/-- The externally loadable payload (`MazeFile` in `game_core/src/lib.rs`). -/
structure MazeFile where
  rooms : List Room
deriving DecidableEq, Repr

namespace GameState

/-- `GameState::from_rooms`: start at the first room's id; the empty room
list hits the `panic!("Maze must have at least one room")`, modelled as
`none`. -/
def from_rooms : List Room → Option GameState
  | [] => none
  | r :: rest => some { rooms := r :: rest, current_room := r.id, is_finished := false }

/-- The start room of the built-in default maze. -/
def startRoom : Room :=
  { id := "start",
    description := "You are in a small stone chamber with one door ahead.",
    exits := [{ label := "Go through the door", destination := "middle" }],
    is_end := false }

/-- The middle room of the built-in default maze. -/
def middleRoom : Room :=
  { id := "middle",
    description := "You stand in a long hallway. There is a door behind and one ahead.",
    exits := [ { label := "Go back", destination := "start" },
               { label := "Go forward", destination := "end" } ],
    is_end := false }

/-- The end room of the built-in default maze. -/
def endRoom : Room :=
  { id := "end",
    description := "You find yourself in a bright room â€” the end of the maze!",
    exits := [],
    is_end := true }

/-- `GameState::default_rooms`: the fixed built-in three-room maze. -/
def default_rooms : List Room := [startRoom, middleRoom, endRoom]

/-- `GameState::new`: the default maze wrapped in a fresh state. -/
def new : Option GameState := from_rooms default_rooms

/-- `GameState::current_room` (the method): first room whose `id` equals the
`current_room` field; the `.expect("current room exists")` panic on a missing
match is modelled as `none`. -/
def currentRoom (s : GameState) : Option Room :=
  s.rooms.find? (fun r => r.id == s.current_room)

/-- `GameState::choose_exit`: look up the current room (panicking if absent),
read the chosen exit's destination and the current room's `is_end` flag,
then move the cursor and possibly set `is_finished`. -/
def chooseExit (s : GameState) (index : Nat) : Option GameState :=
  match s.currentRoom with
  | none => none
  | some room =>
    let destination := room.exits[index]?.map (fun e => e.destination)
    let is_end := room.is_end
    match destination with
    | none => some s
    | some dest =>
      some { s with
              current_room := dest,
              is_finished := if is_end then true else s.is_finished }

/-- A sequence of `choose_exit` calls, aborting (`none`) as soon as one
call panics. -/
def chooseExits (s : GameState) : List Nat → Option GameState
  | [] => some s
  | i :: rest =>
    match s.chooseExit i with
    | none => none
    | some s2 => s2.chooseExits rest

end GameState

/-- The two concrete error values that can flow into the boxed error of
`GameState::load_from_file`: the `std::io::Error` of `File::open` and the
`serde_json::Error` of `from_reader`. -/
inductive LoadError where
  | ioError (msg : String)
  | parseError (msg : String)
deriving DecidableEq, Repr

/-- `GameState::load_from_file`, with the file system (`fsOpen`, the outcome
of `File::open` + read at a path) and the JSON deserializer (`parseMazeFile`,
the outcome of `serde_json::from_reader`) as external parameters.  The outer
`none` is the panic of `from_rooms` on an empty parsed room list. -/
def load_from_file (fsOpen : String → Except String String)
    (parseMazeFile : String → Except String MazeFile) (path : String) :
    Option (Except LoadError GameState) :=
  match fsOpen path with
  | .error e => some (.error (.ioError e))
  | .ok content =>
    match parseMazeFile content with
    | .error e => some (.error (.parseError e))
    | .ok mf =>
      match GameState.from_rooms mf.rooms with
      | none => none
      | some s => some (.ok s)

/-- `MazeApp::default` from `desktop/src/main.rs`: resolve `maze.json` next to
the executable; when the directory is unknown, the file is absent, or loading
fails, fall back to `GameState::new()`.  `exeDir` models
`current_exe().parent()`, `pathExists` models `Path::exists`. -/
def mazeAppInitialState (exeDir : Option String) (pathExists : String → Bool)
    (fsOpen : String → Except String String)
    (parseMazeFile : String → Except String MazeFile) : Option GameState :=
  match exeDir with
  | none => GameState.new
  | some dir =>
    let mazePath := dir ++ "/maze.json"
    if pathExists mazePath then
      match load_from_file fsOpen parseMazeFile mazePath with
      | none => none
      | some (.ok s) => some s
      | some (.error _) => GameState.new
    else GameState.new

namespace GameState

/-- The default-maze state positioned at the start room. -/
def startState : GameState :=
  { rooms := default_rooms, current_room := "start", is_finished := false }

/-- The default-maze state positioned at the middle room. -/
def midState : GameState :=
  { rooms := default_rooms, current_room := "middle", is_finished := false }

end GameState

open GameState

/-- C6: on the default built-in maze, `choose_exit(0)` from `start` moves to
`middle` with `is_finished = false` (Scenario A), and `choose_exit(0)` from
`middle` moves back to `start` with `is_finished = false` (Scenario C). -/
theorem default_maze_scenarios_A_C :
    GameState.new = some startState ∧
    startState.current_room = "start" ∧
    startState.chooseExit 0 = some midState ∧
    midState.current_room = "middle" ∧ midState.is_finished = false ∧
    midState.chooseExit 0 = some startState ∧
    startState.is_finished = false := by
  decide

/-- C1 failing evaluation: on the default maze, `choose_exit(1)` from
`middle` moves the cursor to `end` — a room with `is_end = true` — yet
leaves `is_finished = false`, because `choose_exit` reads `is_end` from the
pre-transition room (`middle`), not from the room being entered. -/
theorem choose_exit_enters_end_room_unfinished :
    midState.chooseExit 1 = some { midState with current_room := "end" } ∧
    (midState.chooseExit 1).map GameState.is_finished = some false ∧
    endRoom.is_end = true := by
  decide

/-- C10: `from_rooms` initializes `is_finished` to `false` unconditionally,
even when the first (start) room has `is_end = true`. -/
theorem from_rooms_unfinished (r : Room) (rest : List Room) :
    (GameState.from_rooms (r :: rest)).map GameState.is_finished = some false :=
  rfl

/-- C9: when the cursor matches no room, `choose_exit` panics for every
index, in- or out-of-bounds, because the `current_room()` lookup runs
before the bounds check. -/
theorem choose_exit_missing_room_aborts (s : GameState) (i : Nat)
    (h : s.currentRoom = none) : s.chooseExit i = none := by
  simp [GameState.chooseExit, h]

/-- A state whose cursor names a nonexistent room id. -/
def ghostState : GameState :=
  { rooms := default_rooms, current_room := "ghost", is_finished := false }

/-- Witness for C9: the default rooms with cursor `"ghost"` abort on the
out-of-bounds index 99 instead of no-opping. -/
theorem choose_exit_missing_room_aborts_witness :
    ghostState.chooseExit 99 = none :=
  choose_exit_missing_room_aborts ghostState 99 (by decide)

/-- C2: under the cursor invariant, an in-bounds `choose_exit i` moves the
cursor to the chosen exit's destination (validated nowhere) and sets
`is_finished` to `true` exactly when the pre-transition room's `is_end`
was true, leaving it unchanged otherwise. -/
theorem choose_exit_in_bounds (s : GameState) (room : Room) (i : Nat)
    (hroom : s.currentRoom = some room) (hi : i < room.exits.length) :
    s.chooseExit i = some { s with
      current_room := (room.exits.get ⟨i, hi⟩).destination,
      is_finished := if room.is_end then true else s.is_finished } := by
  unfold GameState.chooseExit
  rw [hroom]
  simp [List.getElem?_eq_getElem hi]

/-- Witness for C2: from the default maze's middle room, exit 1 leads to
`"end"` and `is_finished` follows the middle room's own `is_end` flag. -/
theorem choose_exit_in_bounds_witness :
    midState.chooseExit 1 = some { midState with current_room := "end" } := by
  have h := choose_exit_in_bounds midState middleRoom 1 (by decide) (by decide)
  rw [h]
  decide

/-- C3: under the cursor invariant, `choose_exit` never mutates `rooms`,
never surfaces an error, and is a complete no-op on out-of-bounds
indices. -/
theorem choose_exit_frame (s : GameState) (room : Room)
    (hroom : s.currentRoom = some room) (i : Nat) :
    (∃ s2, s.chooseExit i = some s2 ∧ s2.rooms = s.rooms) ∧
    (room.exits.length ≤ i → s.chooseExit i = some s) := by
  constructor
  · cases hget : room.exits[i]? with
    | none =>
      refine ⟨s, ?_, rfl⟩
      unfold GameState.chooseExit
      rw [hroom]
      simp [hget]
    | some e =>
      refine ⟨⟨s.rooms, e.destination, if room.is_end then true else s.is_finished⟩, ?_, rfl⟩
      unfold GameState.chooseExit
      rw [hroom]
      simp [hget]
  · intro hle
    unfold GameState.chooseExit
    rw [hroom]
    simp [List.getElem?_eq_none hle]

/-- Witness for C3: index 5 is out of bounds in the middle room, and the
call returns the state untouched. -/
theorem choose_exit_frame_witness :
    (∃ s2, midState.chooseExit 5 = some s2 ∧ s2.rooms = midState.rooms) ∧
    midState.chooseExit 5 = some midState := by
  have h := choose_exit_frame midState middleRoom (by decide) 5
  exact ⟨h.1, h.2 (by decide)⟩

/-- One `choose_exit` step never clears an already-set `is_finished`. -/
lemma chooseExit_preserves_finished {s s2 : GameState} {i : Nat}
    (h : s.chooseExit i = some s2) (hf : s.is_finished = true) :
    s2.is_finished = true := by
  unfold GameState.chooseExit at h
  cases hcr : s.currentRoom with
  | none => rw [hcr] at h; simp at h
  | some room =>
    rw [hcr] at h
    cases hget : room.exits[i]? with
    | none =>
      simp [hget] at h
      rw [← h]; exact hf
    | some e =>
      simp [hget] at h
      rw [← h]
      simp [hf]

/-- C5: `is_finished` is monotonic — once true, no sequence of
`choose_exit` calls (with any indices, whether they move, no-op, or
panic midway) ever yields a state with `is_finished = false`. -/
theorem is_finished_monotonic (indices : List Nat) :
    ∀ (s s2 : GameState), s.is_finished = true →
      s.chooseExits indices = some s2 → s2.is_finished = true := by
  induction indices with
  | nil =>
    intro s s2 hf h
    unfold GameState.chooseExits at h
    simp at h
    rw [← h]
    exact hf
  | cons i rest ih =>
    intro s s2 hf h
    unfold GameState.chooseExits at h
    cases hstep : s.chooseExit i with
    | none => rw [hstep] at h; simp at h
    | some s1 =>
      rw [hstep] at h
      exact ih s1 s2 (chooseExit_preserves_finished hstep hf) h

/-- The default-maze state at the middle room with the finished flag
already set. -/
def finState : GameState :=
  { rooms := default_rooms, current_room := "middle", is_finished := true }

/-- Witness for C5: from a finished state at `middle`, the call sequence
`[1, 5]` (a move to `end`, then an ignored out-of-bounds click) keeps
`is_finished = true`. -/
theorem is_finished_monotonic_witness :
    ({ finState with current_room := "end" } : GameState).is_finished = true :=
  is_finished_monotonic [1, 5] finState { finState with current_room := "end" }
    (by decide) (by decide)

/-- C4: `from_rooms` on a non-empty list starts the cursor at the first
room's id, so `current_room()` immediately returns that first room; on
the empty list it panics (modelled `none`). -/
theorem from_rooms_spec :
    (∀ (r : Room) (rest : List Room), ∃ s,
        GameState.from_rooms (r :: rest) = some s ∧
        s.current_room = r.id ∧ s.currentRoom = some r) ∧
    GameState.from_rooms [] = none := by
  constructor
  · intro r rest
    refine ⟨_, rfl, rfl, ?_⟩
    show (r :: rest).find? (fun x => x.id == r.id) = some r
    rw [List.find?_cons_of_pos]
    simp
  · rfl

/-- First-match decomposition for `List.find?`: a found element satisfies
the predicate and everything strictly before it fails it. -/
lemma find?_first_match {α : Type} {p : α → Bool} :
    ∀ (l : List α) (a : α), l.find? p = some a →
      p a = true ∧ ∃ pre post, l = pre ++ a :: post ∧ ∀ x ∈ pre, p x = false := by
  intro l
  induction l with
  | nil => intro a h; simp at h
  | cons b t ih =>
    intro a h
    cases hb : p b with
    | true =>
      rw [List.find?_cons_of_pos _ hb] at h
      obtain rfl : b = a := by injection h
      exact ⟨hb, [], t, rfl, by simp⟩
    | false =>
      rw [List.find?_cons_of_neg _ (by simp [hb])] at h
      obtain ⟨hpa, pre, post, heq, hpre⟩ := ih a h
      refine ⟨hpa, b :: pre, post, by rw [heq, List.cons_append], ?_⟩
      intro x hx
      rcases List.mem_cons.mp hx with rfl | hx2
      · exact hb
      · exact hpre x hx2

/-- C7: `current_room()` returns the first room (in sequence order) whose
id equals the cursor — so with duplicate ids the earliest match wins —
and when no room matches it cannot succeed (the `expect` panic, modelled
`none`).  The operation reads the state and builds no new one. -/
theorem current_room_spec (s : GameState) :
    (∀ r, s.currentRoom = some r →
        r.id = s.current_room ∧
        ∃ pre post, s.rooms = pre ++ r :: post ∧ ∀ q ∈ pre, q.id ≠ s.current_room) ∧
    ((∀ r ∈ s.rooms, r.id ≠ s.current_room) → s.currentRoom = none) := by
  constructor
  · intro r hr
    have hr2 : s.rooms.find? (fun x => x.id == s.current_room) = some r := hr
    obtain ⟨hpr, pre, post, heq, hpre⟩ := find?_first_match s.rooms r hr2
    refine ⟨by simpa using hpr, pre, post, heq, ?_⟩
    intro q hq
    simpa using hpre q hq
  · intro hall
    unfold GameState.currentRoom
    rw [List.find?_eq_none]
    intro x hx
    simpa using hall x hx

/-- A room named `a` (first of two sharing the id). -/
def roomA : Room :=
  { id := "a", description := "first", exits := [], is_end := false }

/-- A second room also named `a`. -/
def roomA2 : Room :=
  { id := "a", description := "second", exits := [], is_end := true }

/-- A state whose rooms contain the duplicate id `a`. -/
def dupState : GameState :=
  { rooms := [roomA, roomA2], current_room := "a", is_finished := false }

/-- Witness for C7: with duplicate id `a` the first room in sequence order
is returned, and a cursor matching no room makes the lookup fail. -/
theorem current_room_spec_witness :
    (roomA.id = dupState.current_room ∧
      ∃ pre post, dupState.rooms = pre ++ roomA :: post ∧
        ∀ q ∈ pre, q.id ≠ dupState.current_room) ∧
    ghostState.currentRoom = none := by
  refine ⟨(current_room_spec dupState).1 roomA (by decide), ?_⟩
  exact (current_room_spec ghostState).2 (by decide)

/-- C8: `load_from_file` fails exactly when the file cannot be opened
(`LoadError.ioError`, from `File::open`) or its content does not parse as
a `MazeFile` (`LoadError.parseError`, from the deserializer) — the variant
identifies which happened — and on any such failure `MazeApp::default`
substitutes the built-in default maze (`GameState::new`) instead of
aborting. -/
theorem load_from_file_spec (fsOpen : String → Except String String)
    (parseMazeFile : String → Except String MazeFile) (dir : String)
    (pathExists : String → Bool) :
    (∀ e, fsOpen (dir ++ "/maze.json") = Except.error e →
        load_from_file fsOpen parseMazeFile (dir ++ "/maze.json") =
          some (Except.error (LoadError.ioError e))) ∧
    (∀ c e, fsOpen (dir ++ "/maze.json") = Except.ok c →
        parseMazeFile c = Except.error e →
        load_from_file fsOpen parseMazeFile (dir ++ "/maze.json") =
          some (Except.error (LoadError.parseError e))) ∧
    (∀ err, load_from_file fsOpen parseMazeFile (dir ++ "/maze.json") =
          some (Except.error err) →
        ((∃ e, err = LoadError.ioError e ∧
            fsOpen (dir ++ "/maze.json") = Except.error e) ∨
         (∃ c e, err = LoadError.parseError e ∧
            fsOpen (dir ++ "/maze.json") = Except.ok c ∧
            parseMazeFile c = Except.error e))) ∧
    (∀ err, load_from_file fsOpen parseMazeFile (dir ++ "/maze.json") =
          some (Except.error err) →
        mazeAppInitialState (some dir) pathExists fsOpen parseMazeFile =
          GameState.new) := by
  refine ⟨?_, ?_, ?_, ?_⟩
  · intro e he
    simp [load_from_file, he]
  · intro c e hc hp
    simp [load_from_file, hc, hp]
  · intro err h
    unfold load_from_file at h
    cases hfs : fsOpen (dir ++ "/maze.json") with
    | error e =>
      simp [hfs] at h
      exact Or.inl ⟨e, h.symm, rfl⟩
    | ok c =>
      cases hp : parseMazeFile c with
      | error e =>
        simp [hfs, hp] at h
        exact Or.inr ⟨c, e, h.symm, rfl, hp⟩
      | ok mf =>
        cases hfr : GameState.from_rooms mf.rooms with
        | none => simp [hfs, hp, hfr] at h
        | some s => simp [hfs, hp, hfr] at h
  · intro err h
    unfold mazeAppInitialState
    cases hex : pathExists (dir ++ "/maze.json") with
    | false => simp [hex]
    | true => simp [hex, h]

/-- A file system in which every open fails. -/
def fsStubMissing : String → Except String String :=
  fun _ => Except.error "No such file or directory"

/-- A deserializer that rejects every input. -/
def parseStub : String → Except String MazeFile :=
  fun _ => Except.error "expected value"

/-- Witness for C8: a nonexistent `maze.json` yields the not-found variant
and the app falls back to the default maze. -/
theorem load_from_file_spec_witness :
    load_from_file fsStubMissing parseStub ("." ++ "/maze.json") =
      some (Except.error (LoadError.ioError "No such file or directory")) ∧
    mazeAppInitialState (some ".") (fun _ => true) fsStubMissing parseStub =
      GameState.new := by
  have h := load_from_file_spec fsStubMissing parseStub "." (fun _ => true)
  exact ⟨h.1 "No such file or directory" rfl,
         h.2.2.2 (LoadError.ioError "No such file or directory")
           (h.1 "No such file or directory" rfl)⟩
